import Mathlib

/-!
Verification development for the Queens Park train departures backend
(`src/backend.py`).  The Python source is shallowly embedded below:

* `calculate_minutes_until` models the function of the same name
  (backend.py lines 134-144); Python `datetime.fromisoformat` is modelled
  by `parseIso` on the formats the upstream emits
  (`YYYY-MM-DD[<sep>HH[:MM[:SS[.frac]]]][tz]`, any single separator
  character, `Z`/`z` or `±HH[:MM]`/`±HHMM` offsets; fractional seconds
  are parsed and discarded).  Times are absolute epoch seconds (`Int`);
  the reference instant `now` is an explicit parameter.
* `fetch_page_tokens`, `get_tokens`, `fetch_all_departures` model the
  token/pipeline functions (lines 64-287).  Network responses are an
  oracle `Nat -> HttpOutcome _` giving the outcome of the n-th HTTP
  request a call would issue; each function also reports how many
  requests it issued, and state (the module-level `TOKEN_CACHE` dict)
  is passed explicitly.
* `perthList`/`southList`/`perthBucket`/`southBucket` model the
  classification part of the `/api/departures` handler (lines 297-309);
  Python's stable `list.sort(key=...)` is modelled by
  `List.insertionSort`, which is stable.
-/

/-! ## Characters and small helpers -/

/-- Whitespace as in Python's regex `\s` (ASCII part). -/
def isSpaceCh (c : Char) : Bool :=
  c == ' ' || c == '\t' || c == '\n' || c == '\r' || c == '\x0b' || c == '\x0c'

/-- Numeric value of a decimal digit character. -/
def digitVal (c : Char) : Nat := c.toNat - '0'.toNat

/-- Value of a two-digit group. -/
def twoDigits (c1 c2 : Char) : Nat := 10 * digitVal c1 + digitVal c2

/-! ## Model of `datetime.fromisoformat` (restricted to upstream formats) -/

/-- A parsed timestamp: calendar fields plus an optional UTC offset in
minutes (`none` models a naive datetime). -/
structure DateTimeM where
  year : Nat
  month : Nat
  day : Nat
  hour : Nat
  minute : Nat
  second : Nat
  tzOffsetMinutes : Option Int
deriving DecidableEq, Repr

/-- Gregorian leap-year test, as validated by Python `datetime`. -/
def isLeapYear (y : Nat) : Bool :=
  y % 4 == 0 && (y % 100 != 0 || y % 400 == 0)

/-- Days in a month, as validated by Python `datetime`. -/
def daysInMonth (y m : Nat) : Nat :=
  if m == 2 then (if isLeapYear y then 29 else 28)
  else if m == 4 || m == 6 || m == 9 || m == 11 then 30
  else 31

/-- Timezone suffix: empty (naive), `Z`/`z`, or `±HH[:MM]` / `±HHMM`.
Returns the offset in minutes, or `none` on a malformed suffix. -/
def parseTz (cs : List Char) : Option (Option Int) :=
  match cs with
  | [] => some none
  | ['Z'] => some (some 0)
  | ['z'] => some (some 0)
  | sign :: h1 :: h2 :: rest =>
    if (sign == '+' || sign == '-') && h1.isDigit && h2.isDigit then
      let hh := twoDigits h1 h2
      let mkOff := fun (mm : Nat) =>
        if hh ≤ 23 && mm ≤ 59 then
          some (some ((if sign == '-' then (-1 : Int) else 1) * (hh * 60 + mm)))
        else none
      match rest with
      | [] => mkOff 0
      | ':' :: m1 :: m2 :: [] =>
        if m1.isDigit && m2.isDigit then mkOff (twoDigits m1 m2) else none
      | m1 :: m2 :: [] =>
        if m1.isDigit && m2.isDigit then mkOff (twoDigits m1 m2) else none
      | _ => none
    else none
  | _ => none

/-- Optional fractional-seconds group (digits after `.` or `,`, value
discarded) followed by the timezone suffix. -/
def parseFracTz (cs : List Char) : Option (Option Int) :=
  match cs with
  | c :: rest =>
    if c == '.' || c == ',' then
      let ds := rest.takeWhile Char.isDigit
      if ds.isEmpty then none else parseTz (rest.dropWhile Char.isDigit)
    else parseTz (c :: rest)
  | [] => parseTz []

/-- Time-of-day after the hour group: `[:MM[:SS[.frac]]]` then timezone.
Returns minute, second and offset. -/
def parseTimeTail (cs : List Char) : Option (Nat × Nat × Option Int) :=
  match cs with
  | ':' :: m1 :: m2 :: rest =>
    if m1.isDigit && m2.isDigit then
      let mi := twoDigits m1 m2
      if mi ≤ 59 then
        match rest with
        | ':' :: s1 :: s2 :: rest2 =>
          if s1.isDigit && s2.isDigit then
            let ss := twoDigits s1 s2
            if ss ≤ 59 then (parseFracTz rest2).map (fun tz => (mi, ss, tz)) else none
          else none
        | other => (parseTz other).map (fun tz => (mi, 0, tz))
      else none
    else none
  | other => (parseTz other).map (fun tz => (0, 0, tz))

/-- Time-of-day: `HH` then `parseTimeTail`. -/
def parseTime (cs : List Char) : Option (Nat × Nat × Nat × Option Int) :=
  match cs with
  | h1 :: h2 :: rest =>
    if h1.isDigit && h2.isDigit then
      let hh := twoDigits h1 h2
      if hh ≤ 23 then (parseTimeTail rest).map (fun x => (hh, x)) else none
    else none
  | _ => none

/-- Model of Python `datetime.fromisoformat` on the formats relevant to
the scraper: `YYYY-MM-DD`, optionally followed by a single separator
character and a time-of-day with optional timezone.  Returns `none`
where Python raises `ValueError`. -/
def parseIso (cs : List Char) : Option DateTimeM :=
  match cs with
  | y1 :: y2 :: y3 :: y4 :: dash1 :: rest =>
    if y1.isDigit && y2.isDigit && y3.isDigit && y4.isDigit && dash1 == '-' then
      let year := 1000 * digitVal y1 + 100 * digitVal y2 + 10 * digitVal y3 + digitVal y4
      if year == 0 then none
      else
        match rest with
        | mo1 :: mo2 :: dash2 :: d1 :: d2 :: rest2 =>
          if mo1.isDigit && mo2.isDigit && dash2 == '-' && d1.isDigit && d2.isDigit then
            let month := twoDigits mo1 mo2
            let day := twoDigits d1 d2
            if 1 ≤ month && month ≤ 12 && 1 ≤ day && day ≤ daysInMonth year month then
              match rest2 with
              | [] => some ⟨year, month, day, 0, 0, 0, none⟩
              | _sep :: timeCs =>
                (parseTime timeCs).map (fun x => ⟨year, month, day, x.1, x.2.1, x.2.2.1, x.2.2.2⟩)
            else none
          else none
        | _ => none
    else none
  | _ => none

/-- Days since 1970-01-01 of a Gregorian date (civil-calendar algorithm;
the parser guarantees `year ≥ 1`). -/
def daysFromCivil (year month day : Nat) : Int :=
  let y := if month ≤ 2 then year - 1 else year
  let era := y / 400
  let yoe := y % 400
  let mp := if 2 < month then month - 3 else month + 9
  let doy := (153 * mp + 2) / 5 + day - 1
  let doe := yoe * 365 + yoe / 4 - yoe / 100 + doy
  (era * 146097 + doe : Int) - 719468

/-- Fixed Perth offset (UTC+8) in minutes, modelling `PERTH_TZ`. -/
def perthOffsetMinutes : Int := 480

/-- Epoch seconds of a parsed timestamp; a naive timestamp is
interpreted in Perth time (`replace(tzinfo=PERTH_TZ)` in the source). -/
def epochSeconds (dt : DateTimeM) : Int :=
  let off := dt.tzOffsetMinutes.getD perthOffsetMinutes
  daysFromCivil dt.year dt.month dt.day * 86400
    + (dt.hour * 3600 + dt.minute * 60 + dt.second : Nat) - off * 60

/-- Model of `calculate_minutes_until` (backend.py lines 134-144):
parse the string as an ISO timestamp, default the timezone to Perth,
take the difference to `now` in whole minutes truncated toward zero as
Python `int()` does, clamp at 0; any parse failure yields `none`
(the Python `except` branch). -/
def calculate_minutes_until (s : String) (now : Int) : Option Int :=
  match parseIso s.data with
  | none => none
  | some dt => some (max 0 (Int.tdiv (epochSeconds dt - now) 60))

/-! ## The `<N> min` countdown pattern of claim C1 -/

/-- Recognizes `min` (case-insensitive) followed by trailing whitespace. -/
def minWordAt (cs : List Char) : Bool :=
  match cs with
  | c1 :: c2 :: c3 :: rest =>
    (c1 == 'm' || c1 == 'M') && (c2 == 'i' || c2 == 'I') && (c3 == 'n' || c3 == 'N') &&
      rest.all isSpaceCh
  | _ => false

/-- The input shape named by claim C1: optional whitespace, an integer,
optional whitespace, `min` in any case, optional trailing whitespace. -/
def minPattern (cs : List Char) : Bool :=
  let t1 := cs.dropWhile isSpaceCh
  let ds := t1.takeWhile Char.isDigit
  let t2 := t1.dropWhile Char.isDigit
  decide (ds ≠ []) && minWordAt (t2.dropWhile isSpaceCh)

/-! ## Data model of the JSON payload (`trips` records) -/

/-- The nested `StopTimetableStop` object (only `Name` is read). -/
structure StopInfoM where
  Name : Option String
deriving DecidableEq, Repr

/-- The nested `RealTimeInfo` object. -/
structure RealTimeInfoM where
  Series : Option String
  NumCars : Option String
  FleetNumber : Option String
deriving DecidableEq, Repr

/-- The nested `Summary` object. -/
structure SummaryM where
  Headsign : Option String
  Direction : Option String
  RouteName : Option String
  RealTimeInfo : Option RealTimeInfoM
deriving DecidableEq, Repr

/-- A trip record of the upstream JSON response; `none` models an
absent key (Python `dict.get` returning its default). -/
structure TripM where
  StopTimetableStop : Option StopInfoM
  Summary : Option SummaryM
  DisplayTripTitle : Option String
  DisplayTripStatusCountDown : Option String
  DepartTime : Option String
deriving DecidableEq, Repr

/-- The normalized departure dict appended at backend.py lines 266-276. -/
structure Departure where
  platform : String
  destination : String
  time_display : String
  minutes : Int
  pattern : String
  stops : String
  route : String
  direction : String
  fleetNumber : String
deriving DecidableEq, Repr

def emptyStop : StopInfoM := ⟨none⟩

def emptyRti : RealTimeInfoM := ⟨none, none, none⟩

def emptySummary : SummaryM := ⟨none, none, none, none⟩

/-- Python `a or b` on strings: `a` if non-empty, else `b`. -/
def pyOr (a b : String) : String := if a ≠ "" then a else b

/-! ## The `Platform N` regex search (backend.py line 237) -/

/-- Digits group of `re.search(r'Platform\s+(\d+(?:/\d+)?)', _)` once
positioned after the whitespace: greedy digits, then an optional `/`
followed by at least one digit (also greedy). -/
def platformDigits (cs : List Char) : Option (List Char) :=
  let ds := cs.takeWhile Char.isDigit
  if ds.isEmpty then none
  else
    match cs.dropWhile Char.isDigit with
    | '/' :: rest2 =>
      let ds2 := rest2.takeWhile Char.isDigit
      if ds2.isEmpty then some ds else some (ds ++ '/' :: ds2)
    | _ => some ds

/-- Tries to match the platform regex anchored at the head of `cs`:
literal `Platform`, one or more whitespace characters, then the digits
group. -/
def platformAt (cs : List Char) : Option (List Char) :=
  match cs with
  | 'P' :: 'l' :: 'a' :: 't' :: 'f' :: 'o' :: 'r' :: 'm' :: rest =>
    if (rest.takeWhile isSpaceCh).isEmpty then none
    else platformDigits (rest.dropWhile isSpaceCh)
  | _ => none

/-- Left-to-right regex search: group 1 of the first position where the
platform pattern matches, as `re.search` returns it. -/
def platformSearch : List Char → Option (List Char)
  | [] => none
  | c :: rest =>
    match platformAt (c :: rest) with
    | some p => some p
    | none => platformSearch rest

/-! ## Per-trip normalization (the loop body, backend.py lines 234-279) -/

/-- The `stops` string of lines 260-264: the constant `All Stations`,
suffixed with the car count when `num_cars` is truthy and with the
series when `series` is truthy. -/
def buildStops (num_cars series : String) : String :=
  let stops0 := "All Stations"
  let stops1 := if num_cars ≠ "" then stops0 ++ " (" ++ num_cars ++ " cars)" else stops0
  if series ≠ "" then stops1 ++ " - " ++ series ++ " series" else stops1

/-- One iteration of the `for trip in trips` loop: extract the fields
with their `dict.get` defaults, normalize the departure time, skip the
record (`continue`) when normalization fails, otherwise build the
departure dict. -/
def processTrip (now : Int) (trip : TripM) : Option Departure :=
  let stop_name := (trip.StopTimetableStop.getD emptyStop).Name.getD ""
  let platform := match platformSearch stop_name.data with
    | some p => String.mk p
    | none => "?"
  let summary := trip.Summary.getD emptySummary
  let headsign := summary.Headsign.getD ""
  let direction := summary.Direction.getD "0"
  let display_title := trip.DisplayTripTitle.getD ""
  let countdown := trip.DisplayTripStatusCountDown.getD ""
  let route_name := summary.RouteName.getD ""
  let rti := summary.RealTimeInfo.getD emptyRti
  let series := rti.Series.getD "W"
  let num_cars := rti.NumCars.getD ""
  let fleet_number := rti.FleetNumber.getD ""
  let depart_time := trip.DepartTime.getD ""
  match calculate_minutes_until depart_time now with
  | none => none
  | some minutes =>
    some ⟨platform, pyOr display_title headsign, countdown, minutes, pyOr series "W",
      buildStops num_cars series, route_name, direction, fleet_number⟩

/-- The `departures` list accumulated over all trips. -/
def tripsToDepartures (now : Int) (trips : List TripM) : List Departure :=
  trips.filterMap (processTrip now)

/-! ## Session token management and the fetch pipeline -/

/-- Outcome of one HTTP request: `timeout` models a raised
`requests` exception, `response` a returned response object. -/
inductive HttpOutcome (α : Type) where
  | timeout : HttpOutcome α
  | response : α → HttpOutcome α
deriving DecidableEq, Repr

/-- The landing page as seen by `fetch_page_tokens`: HTTP status plus
the two token carriers.  `inputElem`/`metaElem` are `none` when the
element is absent, `some v` when it is present with attribute value
`v` (itself optional, as the attribute may be missing). -/
structure LandingPage where
  status : Nat
  inputElem : Option (Option String)
  metaElem : Option (Option String)
deriving DecidableEq, Repr

/-- The token dict built by a successful `fetch_page_tokens`. -/
structure TokensM where
  verification_token : String
  module_id : String
  tab_id : String
  timestamp : Int
deriving DecidableEq, Repr

/-- The module-level `TOKEN_CACHE` dict. -/
structure TokenCache where
  verification_token : Option String
  module_id : String
  tab_id : String
  timestamp : Option Int
deriving DecidableEq, Repr

/-- `TOKEN_CACHE` as initialized at backend.py lines 32-37. -/
def initialCache : TokenCache := ⟨none, "5111", "248", none⟩

/-- Python truthiness of the token value (`None` and `''` are falsy). -/
def tokenTruthy : Option String → Bool
  | none => false
  | some s => s != ""

/-- Token lookup order of lines 89-94: the hidden input's `value`
attribute if the input element exists, else the meta tag's `content`. -/
def findVerificationToken (page : LandingPage) : Option String :=
  match page.inputElem with
  | some v => v
  | none =>
    match page.metaElem with
    | some v => v
    | none => none

/-- Model of `fetch_page_tokens` (backend.py lines 64-118): one GET of
the landing page (no retry; a timeout is swallowed by the `except` and
yields `None`), 403 and other non-200 statuses yield `None`, otherwise
the token is extracted and returned with a fresh timestamp.  The second
component counts HTTP requests issued. -/
def fetch_page_tokens (now : Int) (net : Nat → HttpOutcome LandingPage) :
    Option TokensM × Nat :=
  match net 0 with
  | .timeout => (none, 1)
  | .response page =>
    if page.status == 403 then (none, 1)
    else if page.status != 200 then (none, 1)
    else
      match findVerificationToken page with
      | some tok => if tok ≠ "" then (some ⟨tok, "5111", "248", now⟩, 1) else (none, 1)
      | none => (none, 1)

/-- `TOKEN_CACHE.update(tokens)` (line 130); the dict passed by
`fetch_page_tokens` carries every key, so all four fields are
replaced. -/
def updateCache (_cache : TokenCache) (t : TokensM) : TokenCache :=
  ⟨some t.verification_token, t.module_id, t.tab_id, some t.timestamp⟩

/-- Model of `get_tokens` (backend.py lines 120-132): return the cache
untouched (and fetch nothing) while the cached timestamp is younger
than 300 seconds and the token is truthy; otherwise refetch, updating
the cache only on success — on failure the previous cache is returned
as-is, stale token included. -/
def get_tokens (now : Int) (cache : TokenCache) (net : Nat → HttpOutcome LandingPage) :
    TokenCache × Nat :=
  let cachedOk :=
    match cache.timestamp with
    | some ts => decide (now - ts < 300) && tokenTruthy cache.verification_token
    | none => false
  if cachedOk then (cache, 0)
  else
    match fetch_page_tokens now net with
    | (some t, n) => (updateCache cache t, n)
    | (none, n) => (cache, n)

/-- A decoded JSON body of the departures API. -/
structure ApiBody where
  result : Option String
  trips : List TripM
deriving DecidableEq, Repr

/-- The departures API POST response: HTTP status and body (`none`
models a body that fails JSON decoding). -/
structure ApiResponse where
  status : Nat
  body : Option ApiBody
deriving DecidableEq, Repr

/-- Result of one `fetch_all_departures` call: the departures list, the
token cache afterwards, and how many landing-page / API requests the
call issued. -/
structure FetchOutcome where
  departures : List Departure
  cache : TokenCache
  landingRequests : Nat
  apiRequests : Nat
deriving DecidableEq, Repr

/-- Model of `fetch_all_departures` (backend.py lines 146-287): obtain
tokens via `get_tokens`; abort with `[]` and no POST when no truthy
token is available; otherwise issue exactly one POST (no retry — a
timeout is swallowed by the outer `except` and yields `[]`).  A 403
returns `[]` without touching the cache; any other non-200, an
undecodable body or a non-`success` result also return `[]`; otherwise
the trip records are normalized. -/
def fetch_all_departures (now : Int) (cache : TokenCache)
    (landingNet : Nat → HttpOutcome LandingPage)
    (apiNet : Nat → HttpOutcome ApiResponse) : FetchOutcome :=
  let tk := get_tokens now cache landingNet
  if ¬ tokenTruthy tk.1.verification_token then ⟨[], tk.1, tk.2, 0⟩
  else
    match apiNet 0 with
    | .timeout => ⟨[], tk.1, tk.2, 1⟩
    | .response r =>
      if r.status == 403 then ⟨[], tk.1, tk.2, 1⟩
      else if r.status != 200 then ⟨[], tk.1, tk.2, 1⟩
      else
        match r.body with
        | none => ⟨[], tk.1, tk.2, 1⟩
        | some body =>
          if body.result != some "success" then ⟨[], tk.1, tk.2, 1⟩
          else ⟨tripsToDepartures now body.trips, tk.1, tk.2, 1⟩

/-! ## Direction classification (the `/api/departures` handler) -/

/-- Ordering of departures by their `minutes` field (the Python sort
key at lines 300-301). -/
def minuteLE (a b : Departure) : Prop := a.minutes ≤ b.minutes

instance : DecidableRel minuteLE := fun a b => inferInstanceAs (Decidable (a.minutes ≤ b.minutes))

instance : IsTotal Departure minuteLE := ⟨fun a b => le_total a.minutes b.minutes⟩

instance : IsTrans Departure minuteLE := ⟨fun _ _ _ hab hbc => le_trans hab hbc⟩

/-- Python's stable `list.sort(key=lambda x: x['minutes'])`, modelled
by stable insertion sort. -/
def sortByMinutes (l : List Departure) : List Departure := List.insertionSort minuteLE l

/-- `perth = [d for d in all_deps if d.get('direction') == '0']` (line 297). -/
def perthList (deps : List Departure) : List Departure :=
  deps.filter (fun d => d.direction == "0")

/-- `south = [d for d in all_deps if d.get('direction') == '1']` (line 298). -/
def southList (deps : List Departure) : List Departure :=
  deps.filter (fun d => d.direction == "1")

/-- The `perth` bucket of the response: sorted, truncated to 10. -/
def perthBucket (deps : List Departure) : List Departure :=
  (sortByMinutes (perthList deps)).take 10

/-- The `south` bucket of the response: sorted, truncated to 10. -/
def southBucket (deps : List Departure) : List Departure :=
  (sortByMinutes (southList deps)).take 10

/-- The two direction buckets of the `/api/departures` handler
(backend.py lines 297-309). -/
def get_departures (deps : List Departure) : List Departure × List Departure :=
  (perthBucket deps, southBucket deps)

/-! ## Concrete scenarios used by witnesses and counterexamples -/

/-- A fully populated trip record: Platform 1, direction `0`,
departing 1970-01-01 08:10 Perth time (epoch 600). -/
def tripFull : TripM :=
  ⟨some ⟨some "Queens Park Stn Platform 1"⟩,
   some ⟨some "Perth", some "0", some "Armadale Line", some ⟨some "B", some "6", some "TDC123"⟩⟩,
   some "Perth", some "10 mins", some "1970-01-01T08:10:00"⟩

/-- A trip with a valid departure time but an empty destination: both
`DisplayTripTitle` and `Headsign` are empty strings. -/
def tripNoDest : TripM :=
  ⟨some ⟨some "Queens Park Stn Platform 2"⟩,
   some ⟨some "", some "0", some "Armadale Line", some ⟨some "B", some "6", some "TDC124"⟩⟩,
   some "", some "15 mins", some "1970-01-01T08:15:00"⟩

/-- A trip carrying the direction code `2`, neither `0` nor `1`. -/
def tripDir2 : TripM :=
  ⟨some ⟨some "Queens Park Stn Platform 1"⟩,
   some ⟨some "Thornlie", some "2", some "Thornlie Line", some ⟨some "A", some "4", some "TDC125"⟩⟩,
   some "Thornlie", some "20 mins", some "1970-01-01T08:20:00"⟩

/-- A trip whose stop name contains no `Platform N` pattern but whose
departure time is valid. -/
def tripNoPlat : TripM :=
  ⟨some ⟨some "Queens Park Stn"⟩,
   some ⟨some "Perth", some "0", some "Armadale Line", some ⟨some "B", some "6", some "TDC126"⟩⟩,
   some "Perth", some "10 mins", some "1970-01-01T08:10:00"⟩

/-- A trip whose stop name contains no `Platform N` pattern and whose
`DepartTime` is an empty string, which `fromisoformat` rejects. -/
def tripBadTime : TripM :=
  ⟨some ⟨some "Queens Park Stn"⟩,
   some ⟨some "Perth", some "0", some "Armadale Line", some ⟨some "B", some "6", some "TDC127"⟩⟩,
   some "Perth", some "", some ""⟩

/-- A token cache holding a token fetched at epoch 0 (fresh for any
`now < 300`). -/
def cacheFresh : TokenCache := ⟨some "tok", "5111", "248", some 0⟩

/-- The same cache viewed at `now = 1000`: its token is 1000 s old,
well past the 300 s TTL — stale but still present. -/
def cacheStale : TokenCache := ⟨some "old", "5111", "248", some 0⟩

/-- A landing page oracle that always answers 403. -/
def landing403 : Nat → HttpOutcome LandingPage := fun _ => .response ⟨403, none, none⟩

/-- A landing page oracle that always answers 200 with a token. -/
def landingGood : Nat → HttpOutcome LandingPage :=
  fun _ => .response ⟨200, some (some "newtok"), none⟩

/-- A landing page oracle whose first request times out and whose
second would succeed — exactly the situation where a retry would
recover. -/
def landingFlaky : Nat → HttpOutcome LandingPage :=
  fun n => if n == 0 then .timeout else .response ⟨200, some (some "newtok"), none⟩

/-- A landing page oracle that always times out. -/
def landingDown : Nat → HttpOutcome LandingPage := fun _ => .timeout

/-- An API oracle answering 200/success with the given trips. -/
def apiOk (trips : List TripM) : Nat → HttpOutcome ApiResponse :=
  fun _ => .response ⟨200, some ⟨some "success", trips⟩⟩

/-- An API oracle that always answers 403. -/
def api403 : Nat → HttpOutcome ApiResponse := fun _ => .response ⟨403, none⟩

/-- An API oracle that always times out. -/
def apiDown : Nat → HttpOutcome ApiResponse := fun _ => .timeout

/-- An API oracle whose first request times out and whose second would
succeed with the given trips. -/
def apiFlaky (trips : List TripM) : Nat → HttpOutcome ApiResponse :=
  fun n => if n == 0 then .timeout else .response ⟨200, some ⟨some "success", trips⟩⟩

/-- The departure `processTrip` produces from `tripFull` at `now = 0`. -/
def depFull : Departure :=
  ⟨"1", "Perth", "10 mins", 10, "B", "All Stations (6 cars) - B series",
   "Armadale Line", "0", "TDC123"⟩

/-- The departure `processTrip` produces from `tripDir2` at `now = 0`. -/
def depDir2 : Departure :=
  ⟨"1", "Thornlie", "20 mins", 20, "A", "All Stations (4 cars) - A series",
   "Thornlie Line", "2", "TDC125"⟩

/-! ## Helper lemmas -/

theorem isSpaceCh_not_digit (c : Char) (h : isSpaceCh c = true) : c.isDigit = false := by
  simp only [isSpaceCh, Bool.or_eq_true, beq_iff_eq] at h
  rcases h with ((((h | h) | h) | h) | h) | h <;> subst h <;> decide

theorem isSpaceCh_ne_dash (c : Char) (h : isSpaceCh c = true) : c ≠ '-' := by
  simp only [isSpaceCh, Bool.or_eq_true, beq_iff_eq] at h
  rcases h with ((((h | h) | h) | h) | h) | h <;> subst h <;> decide

theorem takeWhile_first (p : Char → Bool) (l : List Char) (c : Char) (t : List Char)
    (h : l.takeWhile p = c :: t) : p c = true := by
  cases l with
  | nil => simp at h
  | cons a l2 =>
    rw [List.takeWhile_cons] at h
    split at h
    · injection h with h1 h2
      subst h1
      assumption
    · simp at h

theorem dropWhile_first_false (p : Char → Bool) (l : List Char) (c : Char) (t : List Char)
    (h : l.dropWhile p = c :: t) : p c = false := by
  induction l with
  | nil => simp at h
  | cons a l2 ih =>
    rw [List.dropWhile_cons] at h
    split at h
    · exact ih h
    · injection h with h1 h2
      subst h1
      rename_i hg
      cases hpa : p a with
      | false => rfl
      | true => exact absurd hpa hg

theorem takeWhile_all (p : Char → Bool) (l : List Char) : (l.takeWhile p).all p = true := by
  induction l with
  | nil => rfl
  | cons a t ih =>
    rw [List.takeWhile_cons]
    split
    · rename_i hg
      simp [List.all_cons, hg, ih]
    · rfl

theorem parseIso_shape (cs : List Char) (dt : DateTimeM) (h : parseIso cs = some dt) :
    ∃ y1 y2 y3 y4 rest, cs = y1 :: y2 :: y3 :: y4 :: '-' :: rest ∧
      y1.isDigit = true ∧ y2.isDigit = true ∧ y3.isDigit = true ∧ y4.isDigit = true := by
  match cs with
  | [] => simp [parseIso] at h
  | [a] => simp [parseIso] at h
  | [a, b] => simp [parseIso] at h
  | [a, b, c] => simp [parseIso] at h
  | [a, b, c, d] => simp [parseIso] at h
  | a :: b :: c :: d :: e :: t =>
    rw [parseIso] at h
    split at h
    · rename_i hc
      simp only [Bool.and_eq_true, beq_iff_eq] at hc
      exact ⟨a, b, c, d, t, by rw [hc.2], hc.1.1.1.1, hc.1.1.1.2, hc.1.1.2, hc.1.2⟩
    · simp at h

theorem minWordAt_shape (l : List Char) (h : minWordAt l = true) :
    ∃ c1 c2 c3 r, l = c1 :: c2 :: c3 :: r ∧ (c1 = 'm' ∨ c1 = 'M') := by
  match l with
  | [] => simp [minWordAt] at h
  | [a] => simp [minWordAt] at h
  | [a, b] => simp [minWordAt] at h
  | a :: b :: c :: r =>
    simp only [minWordAt, Bool.and_eq_true, Bool.or_eq_true, beq_iff_eq] at h
    exact ⟨a, b, c, r, rfl, h.1.1.1⟩

theorem afterDigits_head_not (t2 : List Char) (c : Char) (r : List Char)
    (hw : minWordAt (t2.dropWhile isSpaceCh) = true) (he : t2 = c :: r) :
    c.isDigit = false ∧ c ≠ '-' := by
  by_cases hs : isSpaceCh c = true
  · exact ⟨isSpaceCh_not_digit c hs, isSpaceCh_ne_dash c hs⟩
  · subst he
    rw [List.dropWhile_cons, if_neg hs] at hw
    obtain ⟨c1, c2, c3, r2, heq, hc1⟩ := minWordAt_shape _ hw
    injection heq with h1 h2
    subst h1
    rcases hc1 with h | h <;> subst h <;> exact ⟨by decide, by decide⟩

theorem minPattern_parseIso_none (cs : List Char) (h : minPattern cs = true) :
    parseIso cs = none := by
  cases hp : parseIso cs with
  | none => rfl
  | some dt =>
    exfalso
    obtain ⟨y1, y2, y3, y4, rest, hcs, h1, h2, h3, h4⟩ := parseIso_shape cs dt hp
    simp only [minPattern, Bool.and_eq_true, decide_eq_true_eq] at h
    obtain ⟨hds, hw⟩ := h
    have hE1 : cs.takeWhile isSpaceCh ++ cs.dropWhile isSpaceCh = cs :=
      List.takeWhile_append_dropWhile isSpaceCh cs
    rcases hw1 : cs.takeWhile isSpaceCh with _ | ⟨c, w1t⟩
    case cons =>
      have hsp : isSpaceCh c = true := takeWhile_first _ _ _ _ hw1
      rw [hw1, List.cons_append] at hE1
      have hcomb := hE1.trans hcs
      injection hcomb with e1 _
      rw [← e1] at h1
      rw [isSpaceCh_not_digit c hsp] at h1
      exact Bool.false_ne_true h1
    case nil =>
      rw [hw1, List.nil_append] at hE1
      rw [hE1] at hds hw
      have hE2 : cs.takeWhile Char.isDigit ++ cs.dropWhile Char.isDigit = cs :=
        List.takeWhile_append_dropWhile Char.isDigit cs
      have hall := takeWhile_all Char.isDigit cs
      rcases hd : cs.takeWhile Char.isDigit with _ | ⟨d1, ds1⟩
      · exact hds hd
      rcases ds1 with _ | ⟨d2, ds2⟩
      · rw [hd, List.cons_append, List.nil_append] at hE2
        have hcomb := hE2.trans hcs
        injection hcomb with e1 e2
        obtain ⟨hnd, _⟩ := afterDigits_head_not _ _ _ hw e2
        rw [hnd] at h2
        exact Bool.false_ne_true h2
      rcases ds2 with _ | ⟨d3, ds3⟩
      · rw [hd] at hE2
        simp only [List.cons_append, List.nil_append] at hE2
        have hcomb := hE2.trans hcs
        injection hcomb with e1 hcomb
        injection hcomb with e2 hcomb
        obtain ⟨hnd, _⟩ := afterDigits_head_not _ _ _ hw hcomb
        rw [hnd] at h3
        exact Bool.false_ne_true h3
      rcases ds3 with _ | ⟨d4, ds4⟩
      · rw [hd] at hE2
        simp only [List.cons_append, List.nil_append] at hE2
        have hcomb := hE2.trans hcs
        injection hcomb with e1 hcomb
        injection hcomb with e2 hcomb
        injection hcomb with e3 hcomb
        obtain ⟨hnd, _⟩ := afterDigits_head_not _ _ _ hw hcomb
        rw [hnd] at h4
        exact Bool.false_ne_true h4
      rcases ds4 with _ | ⟨d5, ds5⟩
      · rw [hd] at hE2
        simp only [List.cons_append, List.nil_append] at hE2
        have hcomb := hE2.trans hcs
        injection hcomb with e1 hcomb
        injection hcomb with e2 hcomb
        injection hcomb with e3 hcomb
        injection hcomb with e4 hcomb
        obtain ⟨_, hne⟩ := afterDigits_head_not _ _ _ hw hcomb
        exact hne rfl
      · rw [hd] at hE2
        simp only [List.cons_append] at hE2
        have hcomb := hE2.trans hcs
        injection hcomb with e1 hcomb
        injection hcomb with e2 hcomb
        injection hcomb with e3 hcomb
        injection hcomb with e4 hcomb
        injection hcomb with e5 hcomb
        rw [hd] at hall
        simp only [List.all_cons, Bool.and_eq_true] at hall
        have hd5 : d5.isDigit = true := hall.2.2.2.2.1
        rw [e5] at hd5
        exact absurd hd5 (by decide)

theorem calc_nonneg (s : String) (now : Int) (m : Int)
    (h : calculate_minutes_until s now = some m) : 0 ≤ m := by
  unfold calculate_minutes_until at h
  split at h
  · exact absurd h (by simp)
  · injection h with h1
    rw [← h1]
    exact le_max_left 0 _

theorem processTrip_some_nonneg (now : Int) (trip : TripM) (d : Departure)
    (h : processTrip now trip = some d) : 0 ≤ d.minutes := by
  simp only [processTrip] at h
  split at h
  · exact absurd h (by simp)
  · rename_i m hm
    injection h with h1
    rw [← h1]
    exact calc_nonneg _ _ _ hm

theorem processTrip_none_of_calc_none (now : Int) (trip : TripM)
    (h : calculate_minutes_until (trip.DepartTime.getD "") now = none) :
    processTrip now trip = none := by
  simp only [processTrip, h]

theorem fetch_page_tokens_snd (now : Int) (net : Nat → HttpOutcome LandingPage) :
    (fetch_page_tokens now net).2 = 1 := by
  unfold fetch_page_tokens
  cases net 0 with
  | timeout => rfl
  | response page =>
    simp only
    split
    · rfl
    · split
      · rfl
      · split
        · split <;> rfl
        · rfl

theorem stringAppend_assoc (a b c : String) : a ++ b ++ c = a ++ (b ++ c) :=
  String.ext (by simp [String.data_append, List.append_assoc])

theorem buildStops_shape (num_cars series : String) :
    ∃ carsPart seriesPart,
      (carsPart = "" ∨ ∃ n, n ≠ "" ∧ carsPart = " (" ++ n ++ " cars)") ∧
      (seriesPart = "" ∨ ∃ sv, sv ≠ "" ∧ seriesPart = " - " ++ sv ++ " series") ∧
      buildStops num_cars series = "All Stations" ++ carsPart ++ seriesPart := by
  unfold buildStops
  by_cases hn : num_cars ≠ "" <;> by_cases hs : series ≠ ""
  · refine ⟨" (" ++ num_cars ++ " cars)", " - " ++ series ++ " series",
      Or.inr ⟨num_cars, hn, rfl⟩, Or.inr ⟨series, hs, rfl⟩, ?_⟩
    simp only [if_pos hn, if_pos hs, stringAppend_assoc]
  · refine ⟨" (" ++ num_cars ++ " cars)", "", Or.inr ⟨num_cars, hn, rfl⟩, Or.inl rfl, ?_⟩
    simp only [if_pos hn, if_neg hs, stringAppend_assoc]
    simp
  · refine ⟨"", " - " ++ series ++ " series", Or.inl rfl, Or.inr ⟨series, hs, rfl⟩, ?_⟩
    simp only [if_neg hn, if_pos hs, stringAppend_assoc]
    simp
  · refine ⟨"", "", Or.inl rfl, Or.inl rfl, ?_⟩
    simp only [if_neg hn, if_neg hs]
    simp

theorem filter_orderedInsert (m : Int) (a : Departure) (l : List Departure) :
    (List.orderedInsert minuteLE a l).filter (fun d => d.minutes == m) =
      if a.minutes == m then a :: l.filter (fun d => d.minutes == m)
      else l.filter (fun d => d.minutes == m) := by
  induction l with
  | nil =>
    simp only [List.orderedInsert_nil, List.filter_cons, List.filter_nil]
  | cons b t ih =>
    by_cases hab : minuteLE a b
    · rw [List.orderedInsert_of_le minuteLE t hab, List.filter_cons]
    · rw [List.orderedInsert, if_neg hab]
      rw [List.filter_cons, ih, List.filter_cons]
      have hba : b.minutes < a.minutes := lt_of_not_le hab
      by_cases hbm : (b.minutes == m) = true
      · have ham : (a.minutes == m) = false := by
          rw [beq_eq_false_iff_ne]
          intro hx
          have hb := beq_iff_eq.1 hbm
          rw [← hx] at hb
          exact absurd hb (ne_of_lt hba)
        simp [hbm, ham]
      · by_cases ham : (a.minutes == m) = true
        · simp [hbm, ham]
        · simp [hbm, ham]

theorem filter_sortByMinutes (m : Int) (l : List Departure) :
    (sortByMinutes l).filter (fun d => d.minutes == m) =
      l.filter (fun d => d.minutes == m) := by
  induction l with
  | nil => rfl
  | cons a t ih =>
    simp only [sortByMinutes, List.insertionSort] at ih ⊢
    rw [filter_orderedInsert, ih, List.filter_cons]

/-! ## Claims -/

/-- Claim C1, counterexample: the input `5 min` matches the countdown
pattern, yet `calculate_minutes_until` returns `none` — not `some 5` as
the claim states. -/
theorem C1_counterexample :
    minPattern "5 min".data = true ∧ calculate_minutes_until "5 min" 0 = none ∧
      ¬ calculate_minutes_until "5 min" 0 = some 5 := by
  refine ⟨by decide, by decide, by decide⟩

/-- Claim C1, amended: for every input matching `<N> min`
(case-insensitive, optional whitespace), `calculate_minutes_until`
returns no result at all — the countdown pattern is not recognized, the
function parses only ISO-8601 timestamps. -/
theorem C1_min_pattern_rejected (s : String) (now : Int)
    (h : minPattern s.data = true) : calculate_minutes_until s now = none := by
  unfold calculate_minutes_until
  rw [minPattern_parseIso_none s.data h]

/-- Witness for C1: the hypothesis holds of the concrete input
`␣12 MIN␣` and the theorem applies to it. -/
theorem C1_min_pattern_rejected_witness :
    minPattern " 12 MIN ".data = true ∧ calculate_minutes_until " 12 MIN " 42 = none :=
  ⟨by decide, C1_min_pattern_rejected " 12 MIN " 42 (by decide)⟩

/-- Claim C5, counterexample: for a trip list with one well-formed
record and one whose destination text is empty (valid departure time),
`fetch_all_departures` returns two departures, not exactly one. -/
theorem C5_counterexample :
    (fetch_all_departures 0 cacheFresh landingGood (apiOk [tripFull, tripNoDest])).departures.length
        = 2 ∧
      ¬ (fetch_all_departures 0 cacheFresh landingGood
          (apiOk [tripFull, tripNoDest])).departures.length = 1 := by
  refine ⟨by decide, by decide⟩

/-- Claim C5, amended: rows with an empty destination are not dropped:
for a trip list with one well-formed record and one record with empty
destination text but a valid departure time, the output of
`fetch_all_departures` contains exactly two normalized departures, the
second carrying the empty destination string. -/
theorem C5_empty_destination_kept :
    (fetch_all_departures 0 cacheFresh landingGood
        (apiOk [tripFull, tripNoDest])).departures.map (fun d => d.destination) = ["Perth", ""] := by
  decide

/-- Claim C6: every direction bucket of the `/api/departures` handler
has length at most 10 and is sorted non-decreasing by `minutes`, and
the sort is stable: for every minutes value `m`, the sublist of
departures with that value is the same, in the same order, before and
after sorting. -/
theorem C6_buckets_sorted_capped (deps : List Departure) :
    (perthBucket deps).length ≤ 10 ∧ (southBucket deps).length ≤ 10 ∧
    List.Sorted minuteLE (perthBucket deps) ∧ List.Sorted minuteLE (southBucket deps) ∧
    (∀ m : Int, (sortByMinutes (perthList deps)).filter (fun d => d.minutes == m) =
      (perthList deps).filter (fun d => d.minutes == m)) ∧
    (∀ m : Int, (sortByMinutes (southList deps)).filter (fun d => d.minutes == m) =
      (southList deps).filter (fun d => d.minutes == m)) := by
  refine ⟨?_, ?_, ?_, ?_, fun m => filter_sortByMinutes m _, fun m => filter_sortByMinutes m _⟩
  · exact le_trans (le_of_eq (congrArg List.length rfl)) (by simp [perthBucket])
  · exact le_trans (le_of_eq (congrArg List.length rfl)) (by simp [southBucket])
  · exact List.Pairwise.sublist (List.take_sublist _ _)
      (List.sorted_insertionSort minuteLE (perthList deps))
  · exact List.Pairwise.sublist (List.take_sublist _ _)
      (List.sorted_insertionSort minuteLE (southList deps))

/-- Claim C7: every departure emitted by the trip-normalization loop
has non-negative `minutes`, and a trip whose departure time cannot be
normalized is discarded (`processTrip` yields nothing for it). -/
theorem C7_minutes_nonneg (now : Int) (trips : List TripM) :
    (∀ d ∈ tripsToDepartures now trips, 0 ≤ d.minutes) ∧
    (∀ trip : TripM, calculate_minutes_until (trip.DepartTime.getD "") now = none →
      processTrip now trip = none) := by
  constructor
  · intro d hd
    simp only [tripsToDepartures] at hd
    rcases List.mem_filterMap.1 hd with ⟨t, _, ht⟩
    exact processTrip_some_nonneg now t d ht
  · exact fun trip h => processTrip_none_of_calc_none now trip h

/-- Witness for C7: the concrete departure of `tripFull` is in the
output with non-negative minutes, and `tripBadTime` (whose departure
time is the unparseable empty string) is discarded. -/
theorem C7_minutes_nonneg_witness :
    depFull ∈ tripsToDepartures 0 [tripFull] ∧ 0 ≤ depFull.minutes ∧
      calculate_minutes_until (tripBadTime.DepartTime.getD "") 0 = none ∧
      processTrip 0 tripBadTime = none :=
  ⟨by decide, (C7_minutes_nonneg 0 [tripFull]).1 depFull (by decide),
   by decide, (C7_minutes_nonneg 0 []).2 tripBadTime (by decide)⟩

/-- Claim C2, counterexample: the first landing request times out while
a second request would succeed, yet `fetch_page_tokens` issues exactly
one request and fails — no retry happens; the same holds for the API
POST in `fetch_all_departures`. -/
theorem C2_counterexample :
    landingFlaky 0 = HttpOutcome.timeout ∧
    fetch_page_tokens 0 landingFlaky = (none, 1) ∧
    (fetch_page_tokens 0 (fun k => landingFlaky (k + 1))).1 =
      some ⟨"newtok", "5111", "248", 0⟩ ∧
    (fetch_all_departures 0 cacheFresh landingGood (apiFlaky [tripFull])).departures = [] ∧
    (fetch_all_departures 0 cacheFresh landingGood (apiFlaky [tripFull])).apiRequests = 1 := by
  refine ⟨by decide, by decide, by decide, by decide, by decide⟩

/-- Claim C2, amended: no fetch is retried — each call of
`fetch_page_tokens` issues exactly one landing request and each call of
`fetch_all_departures` that reaches the data fetch issues exactly one
API request; a timeout on that single attempt immediately surfaces as a
fetch failure (`none` / empty list). -/
theorem C2_single_attempt_no_retry (now : Int) (cache : TokenCache)
    (landingNet : Nat → HttpOutcome LandingPage) (apiNet : Nat → HttpOutcome ApiResponse)
    (htok : tokenTruthy (get_tokens now cache landingNet).1.verification_token = true) :
    (fetch_page_tokens now landingNet).2 = 1 ∧
    (landingNet 0 = HttpOutcome.timeout → (fetch_page_tokens now landingNet).1 = none) ∧
    (fetch_all_departures now cache landingNet apiNet).apiRequests = 1 ∧
    (apiNet 0 = HttpOutcome.timeout →
      (fetch_all_departures now cache landingNet apiNet).departures = []) := by
  refine ⟨fetch_page_tokens_snd now landingNet, ?_, ?_, ?_⟩
  · intro h
    simp [fetch_page_tokens, h]
  · cases hn : apiNet 0 with
    | timeout => simp [fetch_all_departures, htok, hn]
    | response r =>
      by_cases h403 : (r.status == 403) = true
      · simp [fetch_all_departures, htok, hn, h403]
      · by_cases h200 : (r.status != 200) = true
        · simp [fetch_all_departures, htok, hn, h403, h200]
        · cases hb : r.body with
          | none => simp [fetch_all_departures, htok, hn, h403, h200, hb]
          | some body =>
            by_cases hres : (body.result != some "success") = true
            · simp [fetch_all_departures, htok, hn, h403, h200, hb, hres]
            · simp [fetch_all_departures, htok, hn, h403, h200, hb, hres]
  · intro h
    simp [fetch_all_departures, htok, h]

/-- Witness for C2: with the fresh cache (no landing fetch needed) and
oracles that always time out, both parts apply concretely. -/
theorem C2_single_attempt_no_retry_witness :
    tokenTruthy (get_tokens 0 cacheFresh landingDown).1.verification_token = true ∧
    (fetch_page_tokens 0 landingDown).2 = 1 ∧
    (fetch_page_tokens 0 landingDown).1 = none ∧
    (fetch_all_departures 0 cacheFresh landingDown apiDown).apiRequests = 1 ∧
    (fetch_all_departures 0 cacheFresh landingDown apiDown).departures = [] := by
  have h := C2_single_attempt_no_retry 0 cacheFresh landingDown apiDown (by decide)
  exact ⟨by decide, h.1, h.2.1 rfl, h.2.2.1, h.2.2.2 rfl⟩

/-- Claim C3, counterexample: the API answers 403 while the cache holds
a fresh token; afterwards the cache is unchanged, and a next call
within the TTL still reuses the cached token with zero landing
fetches — no invalidation or refetch is triggered. -/
theorem C3_counterexample :
    (fetch_all_departures 0 cacheFresh landingGood api403).departures = [] ∧
    (fetch_all_departures 0 cacheFresh landingGood api403).cache = cacheFresh ∧
    get_tokens 100 (fetch_all_departures 0 cacheFresh landingGood api403).cache landingGood =
      (cacheFresh, 0) := by
  refine ⟨by decide, by decide, by decide⟩

/-- Claim C3, amended: a 403 on the API call makes the call return an
empty result but leaves the token cache exactly as `get_tokens` left
it — the token is not invalidated — and any later call whose cache
holds a token younger than the 300 s TTL reuses it without any landing
fetch. -/
theorem C3_403_keeps_cached_token (now : Int) (cache : TokenCache)
    (landingNet : Nat → HttpOutcome LandingPage) (apiNet : Nat → HttpOutcome ApiResponse)
    (r : ApiResponse)
    (htok : tokenTruthy (get_tokens now cache landingNet).1.verification_token = true)
    (hresp : apiNet 0 = HttpOutcome.response r) (hs : r.status = 403) :
    fetch_all_departures now cache landingNet apiNet =
      ⟨[], (get_tokens now cache landingNet).1, (get_tokens now cache landingNet).2, 1⟩ ∧
    (∀ now2 : Int, ∀ c : TokenCache, ∀ ts : Int, c.timestamp = some ts → now2 - ts < 300 →
      tokenTruthy c.verification_token = true → get_tokens now2 c landingNet = (c, 0)) := by
  constructor
  · simp [fetch_all_departures, htok, hresp, hs]
  · intro now2 c ts hts h300 htokc
    simp [get_tokens, hts, h300, htokc]

/-- Witness for C3: applied to the fresh cache and the always-403 API
oracle; the hypotheses hold concretely. -/
theorem C3_403_keeps_cached_token_witness :
    fetch_all_departures 0 cacheFresh landingGood api403 =
      ⟨[], (get_tokens 0 cacheFresh landingGood).1, (get_tokens 0 cacheFresh landingGood).2, 1⟩ ∧
    get_tokens 100 cacheFresh landingGood = (cacheFresh, 0) := by
  have h := C3_403_keeps_cached_token 0 cacheFresh landingGood api403 ⟨403, none⟩
    (by decide) rfl rfl
  exact ⟨h.1, h.2 100 cacheFresh 0 rfl (by decide) (by decide)⟩

/-- Claim C4, counterexample: at `now = 1000` the cached token from
epoch 0 is 1000 s old (TTL is 300 s) and the landing fetch fails with
403 — yet the pipeline still issues the API POST using the stale token
and returns data, instead of stopping with an empty result. -/
theorem C4_counterexample :
    (fetch_page_tokens 1000 landing403).1 = none ∧
    (fetch_all_departures 1000 cacheStale landing403 (apiOk [tripFull])).apiRequests = 1 ∧
    ¬ (fetch_all_departures 1000 cacheStale landing403 (apiOk [tripFull])).departures = [] := by
  refine ⟨by decide, by decide, by decide⟩

/-- Claim C4, amended: when the token fetch fails (landing fetch failed
or no token in the page) and no previous token remains in the cache,
`fetch_all_departures` returns an empty result without issuing the API
POST (one landing request, zero API requests, cache unchanged); if a
stale token is still cached, however, the pipeline proceeds with it. -/
theorem C4_no_token_no_post (now : Int) (cache : TokenCache)
    (landingNet : Nat → HttpOutcome LandingPage) (apiNet : Nat → HttpOutcome ApiResponse)
    (hfail : (fetch_page_tokens now landingNet).1 = none)
    (hcache : tokenTruthy cache.verification_token = false) :
    fetch_all_departures now cache landingNet apiNet = ⟨[], cache, 1, 0⟩ := by
  have hfp : fetch_page_tokens now landingNet = (none, 1) :=
    Prod.ext hfail (fetch_page_tokens_snd now landingNet)
  have hgt : get_tokens now cache landingNet = (cache, 1) := by
    cases hts : cache.timestamp <;> simp [get_tokens, hts, hcache, hfp]
  simp [fetch_all_departures, hgt, hcache]

/-- Witness for C4: the empty initial cache plus an always-403 landing
page; the theorem applies concretely. -/
theorem C4_no_token_no_post_witness :
    (fetch_page_tokens 5 landing403).1 = none ∧
    tokenTruthy initialCache.verification_token = false ∧
    fetch_all_departures 5 initialCache landing403 (apiOk []) = ⟨[], initialCache, 1, 0⟩ :=
  ⟨by decide, by decide,
   C4_no_token_no_post 5 initialCache landing403 (apiOk []) (by decide) (by decide)⟩

/-- Claim C8, counterexample: the departure built from `tripDir2`
(direction code `2`) is returned by `fetch_all_departures` but appears
in neither the `perth` nor the `south` bucket — the buckets do not
partition the output. -/
theorem C8_counterexample :
    depDir2 ∈ (fetch_all_departures 0 cacheFresh landingGood (apiOk [tripDir2])).departures ∧
    ¬ depDir2 ∈ perthBucket (fetch_all_departures 0 cacheFresh landingGood
        (apiOk [tripDir2])).departures ∧
    ¬ depDir2 ∈ southBucket (fetch_all_departures 0 cacheFresh landingGood
        (apiOk [tripDir2])).departures := by
  refine ⟨by decide, by decide, by decide⟩

/-- Claim C8, amended: the handler partitions by exact direction code:
a departure with code `0` falls in the perth list only, one with code
`1` in the south list only, and one with any other code is dropped
from both. -/
theorem C8_direction_code_partition (deps : List Departure) (d : Departure) (hd : d ∈ deps) :
    (d.direction = "0" → d ∈ perthList deps ∧ ¬ d ∈ southList deps) ∧
    (d.direction = "1" → d ∈ southList deps ∧ ¬ d ∈ perthList deps) ∧
    (d.direction ≠ "0" → d.direction ≠ "1" →
      ¬ d ∈ perthList deps ∧ ¬ d ∈ southList deps) := by
  refine ⟨fun h0 => ⟨?_, ?_⟩, fun h1 => ⟨?_, ?_⟩, fun h0 h1 => ⟨?_, ?_⟩⟩
  · exact List.mem_filter.2 ⟨hd, by simp [h0]⟩
  · intro hmem
    have := (List.mem_filter.1 hmem).2
    simp [h0] at this
  · exact List.mem_filter.2 ⟨hd, by simp [h1]⟩
  · intro hmem
    have := (List.mem_filter.1 hmem).2
    simp [h1] at this
  · intro hmem
    have := (List.mem_filter.1 hmem).2
    simp at this
    exact h0 this
  · intro hmem
    have := (List.mem_filter.1 hmem).2
    simp at this
    exact h1 this

/-- Witness for C8: `depFull` (direction `0`) in a singleton list is in
the perth list and not in the south list. -/
theorem C8_direction_code_partition_witness :
    depFull ∈ perthList [depFull] ∧ ¬ depFull ∈ southList [depFull] :=
  (C8_direction_code_partition [depFull] depFull (by decide)).1 (by decide)

/-- Claim C9: every departure emitted by the trip-normalization loop
has a `stops` field equal to the constant `All Stations`, optionally
suffixed with a car count and a series from the real-time equipment
descriptor — never the trip's actual stopping pattern. -/
theorem C9_stops_constant (now : Int) (trips : List TripM) :
    ∀ d ∈ tripsToDepartures now trips, ∃ carsPart seriesPart,
      (carsPart = "" ∨ ∃ n, n ≠ "" ∧ carsPart = " (" ++ n ++ " cars)") ∧
      (seriesPart = "" ∨ ∃ sv, sv ≠ "" ∧ seriesPart = " - " ++ sv ++ " series") ∧
      d.stops = "All Stations" ++ carsPart ++ seriesPart := by
  intro d hd
  simp only [tripsToDepartures] at hd
  rcases List.mem_filterMap.1 hd with ⟨t, _, ht⟩
  simp only [processTrip] at ht
  split at ht
  · exact absurd ht (by simp)
  · rw [Option.some_inj] at ht
    rw [← ht]
    exact buildStops_shape _ _

/-- Witness for C9: the concrete departure of `tripFull` has the
required `stops` shape. -/
theorem C9_stops_constant_witness :
    depFull ∈ tripsToDepartures 0 [tripFull] ∧
    (∃ carsPart seriesPart,
      (carsPart = "" ∨ ∃ n, n ≠ "" ∧ carsPart = " (" ++ n ++ " cars)") ∧
      (seriesPart = "" ∨ ∃ sv, sv ≠ "" ∧ seriesPart = " - " ++ sv ++ " series") ∧
      depFull.stops = "All Stations" ++ carsPart ++ seriesPart) :=
  ⟨by decide, C9_stops_constant 0 [tripFull] depFull (by decide)⟩

/-- Claim C10, counterexample: `tripBadTime` has no `Platform N`
pattern in its stop name, yet `fetch_all_departures` does not emit it
at all (its departure time is unparseable), contradicting the claim
that every such trip is still emitted. -/
theorem C10_counterexample :
    platformSearch (((tripBadTime.StopTimetableStop.getD emptyStop).Name.getD "").data) = none ∧
    processTrip 0 tripBadTime = none ∧
    (fetch_all_departures 0 cacheFresh landingGood (apiOk [tripBadTime])).departures = [] := by
  refine ⟨by decide, by decide, by decide⟩

/-- Claim C10, amended: every trip whose stop name has no `Platform N`
pattern and whose departure time does normalize is still emitted, with
the placeholder platform `?`. -/
theorem C10_no_platform_placeholder (now : Int) (trip : TripM) (m : Int)
    (hplat : platformSearch (((trip.StopTimetableStop.getD emptyStop).Name.getD "").data) = none)
    (htime : calculate_minutes_until (trip.DepartTime.getD "") now = some m) :
    ∃ d, processTrip now trip = some d ∧ d.platform = "?" ∧ d.minutes = m ∧
      ∀ trips : List TripM, trip ∈ trips → d ∈ tripsToDepartures now trips := by
  simp only [processTrip, hplat, htime]
  refine ⟨_, rfl, rfl, rfl, ?_⟩
  intro trips htr
  simp only [tripsToDepartures]
  refine List.mem_filterMap.2 ⟨trip, htr, ?_⟩
  simp only [processTrip, hplat, htime]

/-- Witness for C10: applied to `tripNoPlat`, whose departure is
emitted with platform `?`. -/
theorem C10_no_platform_placeholder_witness :
    platformSearch (((tripNoPlat.StopTimetableStop.getD emptyStop).Name.getD "").data) = none ∧
    calculate_minutes_until (tripNoPlat.DepartTime.getD "") 0 = some 10 ∧
    (∃ d, processTrip 0 tripNoPlat = some d ∧ d.platform = "?" ∧ d.minutes = 10 ∧
      ∀ trips : List TripM, tripNoPlat ∈ trips → d ∈ tripsToDepartures 0 trips) :=
  ⟨by decide, by decide, C10_no_platform_placeholder 0 tripNoPlat 10 (by decide) (by decide)⟩
